import Mathlib

/-!
# FTX lending bot: shallow embedding of `main.go`

The Go program is embedded function by function.

* Go `string` and `[]byte` values are byte sequences (`Bytes`); conversions between the two
  are the identity.
* `float64` values are IEEE 754 binary64 values (`Float64`), multiplied with round-to-nearest,
  ties to even.
* Everything the program obtains from outside its own source (environment variables, the wall
  clock, the Go standard library's HMAC, HTTP and JSON routines, the exchange, the cycle timer)
  is a field of `Env`; the program never changes it.
* What the program changes while it runs (how many clock readings it took, which requests it
  sent, which lines it logged) is the explicit `State` threaded through every function.
* A run-time panic (nil-pointer dereference) is the `Outcome.panic` result.
-/

namespace FtxLendingBot

/-- Go `string` and `[]byte` values: finite byte sequences. -/
abbrev Bytes := List UInt8

/-- The bytes of a string literal of the Go source (Go source text is UTF-8). -/
def str (s : String) : Bytes := s.data.flatMap String.utf8EncodeChar

/-- Go `error` values, represented by the text `Error()` returns (what `%s` prints). -/
abbrev Err := Bytes

/-- Result of running a Go function: it either panics or returns a value. -/
inductive Outcome (α : Type) where
  | panic : Outcome α
  | ok : α → Outcome α
  deriving DecidableEq, Repr

/-! ## Go `float64` -/

/-- Go `float64`: an IEEE 754 binary64 value, given by its sign bit, its 11-bit biased exponent
and its 52-bit fraction. -/
structure Float64 where
  sign : Bool
  exp : Fin 2048
  frac : Fin 4503599627370496
  deriving DecidableEq, Repr

/-- The value with the given 64-bit pattern (Go `math.Float64frombits`). -/
def Float64.ofBits (n : Nat) : Float64 :=
  { sign := decide (n / 9223372036854775808 % 2 = 1)
    exp := ⟨n / 4503599627370496 % 2048, Nat.mod_lt _ (by decide)⟩
    frac := ⟨n % 4503599627370496, Nat.mod_lt _ (by decide)⟩ }

/-- Positive zero, the zero value of the type. -/
def Float64.zero : Float64 := { sign := false, exp := 0, frac := 0 }

/-- The infinity of the given sign. -/
def Float64.inf (sign : Bool) : Float64 := { sign := sign, exp := 2047, frac := 0 }

/-- The NaN that stands for every NaN result. Which NaN the hardware delivers differs between
processors and is visible only through `math.Float64bits`, which the program does not use;
with inputs that are not NaN or infinite the program's products are never NaN. -/
def Float64.nan : Float64 := { sign := false, exp := 2047, frac := 2251799813685248 }

/-- Whether the value is a NaN. -/
def Float64.isNaN (x : Float64) : Bool := x.exp.val == 2047 && x.frac.val != 0

/-- Whether the value is an infinity. -/
def Float64.isInf (x : Float64) : Bool := x.exp.val == 2047 && x.frac.val == 0

/-- Whether the value is a zero of either sign. -/
def Float64.isZero (x : Float64) : Bool := x.exp.val == 0 && x.frac.val == 0

/-- Integer significand of a finite value: its magnitude is
`significand * 2 ^ (scale - 1075)`. -/
def Float64.significand (x : Float64) : Nat :=
  if x.exp.val = 0 then x.frac.val else 4503599627370496 + x.frac.val

/-- Exponent of the unit of the significand, offset by 1075. -/
def Float64.scale (x : Float64) : Nat := if x.exp.val = 0 then 1 else x.exp.val

/-- Number of binary digits of `p`, by halving at most `fuel` times. -/
def Float64.bitsWithin : Nat → Nat → Nat
  | 0, _ => 0
  | fuel + 1, p => if p = 0 then 0 else Float64.bitsWithin fuel (p / 2) + 1

/-- Number of binary digits of `p`. -/
def Float64.bitLength (p : Nat) : Nat := Float64.bitsWithin p p

/-- Exponent, offset by 2150, of the unit in the last place of the float64 nearest to
`p * 2 ^ (x - 2150)`: 53 digits are kept, and no unit is finer than the subnormal one. -/
def Float64.unitExp (p x : Nat) : Nat := max (x + Float64.bitLength p - 53) 1076

/-- The integer nearest to `p * 2 ^ x / 2 ^ t`, ties to even. -/
def Float64.roundSig (p x t : Nat) : Nat :=
  if t ≤ x then p * 2 ^ (x - t)
  else if 2 ^ (t - x) < 2 * (p % 2 ^ (t - x)) ∨
      (2 * (p % 2 ^ (t - x)) = 2 ^ (t - x) ∧ p / 2 ^ (t - x) % 2 = 1)
    then p / 2 ^ (t - x) + 1
    else p / 2 ^ (t - x)

/-- The float64 of the given sign and magnitude `m * 2 ^ (t - 2150)`, for `m` below 2^53 and
`t` at least 1076: subnormal below 2^52, the infinity beyond the largest exponent. -/
def Float64.pack (sign : Bool) (m t : Nat) : Float64 :=
  if m < 4503599627370496 then
    { sign := sign, exp := 0, frac := ⟨m % 4503599627370496, Nat.mod_lt _ (by decide)⟩ }
  else if 2047 ≤ t - 1075 then Float64.inf sign
  else
    { sign := sign, exp := ⟨(t - 1075) % 2048, Nat.mod_lt _ (by decide)⟩
      frac := ⟨(m - 4503599627370496) % 4503599627370496, Nat.mod_lt _ (by decide)⟩ }

/-- The float64 of the given sign nearest in magnitude to `p * 2 ^ (x - 2150)`, ties to even;
the infinity when that lies beyond the largest finite value. -/
def Float64.round (sign : Bool) (p x : Nat) : Float64 :=
  if p = 0 then { sign := sign, exp := 0, frac := 0 }
  else if Float64.roundSig p x (Float64.unitExp p x) = 9007199254740992 then
    Float64.pack sign 4503599627370496 (Float64.unitExp p x + 1)
  else Float64.pack sign (Float64.roundSig p x (Float64.unitExp p x)) (Float64.unitExp p x)

/-- Go `a * b` on `float64`: the exact product rounded to nearest, ties to even. -/
def Float64.mul (a b : Float64) : Float64 :=
  if a.isNaN || b.isNaN then Float64.nan
  else if a.isInf || b.isInf then
    if a.isZero || b.isZero then Float64.nan else Float64.inf (a.sign != b.sign)
  else Float64.round (a.sign != b.sign) (a.significand * b.significand) (a.scale + b.scale)

/-- Position of a value that is not a NaN in the order of the extended reals: the sign applied
to the integer that exponent and fraction spell. -/
def Float64.key (x : Float64) : Int :=
  if x.sign then -((x.exp.val * 4503599627370496 + x.frac.val : Nat) : Int)
  else ((x.exp.val * 4503599627370496 + x.frac.val : Nat) : Int)

/-- Go `a <= b` on `float64`: false when either side is a NaN. -/
def Float64.le (a b : Float64) : Prop := a.isNaN = false ∧ b.isNaN = false ∧ a.key ≤ b.key

instance : LE Float64 := ⟨Float64.le⟩

instance (a b : Float64) : Decidable (a ≤ b) :=
  inferInstanceAs (Decidable (a.isNaN = false ∧ b.isNaN = false ∧ a.key ≤ b.key))

/-- The exact value of a finite float64. -/
def Float64.toRat? (x : Float64) : Option ℚ :=
  if x.exp.val = 2047 then none
  else some ((if x.sign then -1 else 1) * (x.significand : ℚ) * 2 ^ x.scale / 2 ^ 1075)

/-- The constant 0.6 of line 158 as a float64: 0x3FE3333333333333. -/
def Float64.c0_6 : Float64 := Float64.ofBits 0x3FE3333333333333

/-- The constant 24 of line 174 as a float64. -/
def Float64.c24 : Float64 := Float64.ofBits 0x4038000000000000

/-- The constant 365 of line 174 as a float64. -/
def Float64.c365 : Float64 := Float64.ofBits 0x4076D00000000000

/-- The constant 100 of line 174 as a float64. -/
def Float64.c100 : Float64 := Float64.ofBits 0x4059000000000000

/-- Go `%f` of a float64: the exact value rounded to six decimals, ties to even. -/
def Float64.fmtF (x : Float64) : Bytes :=
  if x.isNaN then str "NaN"
  else if x.isInf then (if x.sign then str "-Inf" else str "+Inf")
  else
    let a := x.significand * 1000000
    let n :=
      if 1075 ≤ x.scale then a * 2 ^ (x.scale - 1075)
      else
        let d := 2 ^ (1075 - x.scale)
        if d < 2 * (a % d) ∨ (2 * (a % d) = d ∧ a / d % 2 = 1) then a / d + 1 else a / d
    (if x.sign then str "-" else []) ++ str (toString (n / 1000000)) ++ str "."
      ++ (str (toString (1000000 + n % 1000000))).drop 1

/-! ## Data and environment -/

/-- The constant `URL` (line 24). -/
def URL : Bytes := str "https://ftx.com/api"

/-- Go `http.Header`, restricted to the single-valued use the program makes of it. Keys are
kept as written; Go canonicalises the key in `Set` and in `Get` alike, and the five keys the
program writes stay pairwise distinct under that canonicalisation. -/
abbrev Header := List (Bytes × Bytes)

/-- Go `Header.Set`: the key's previous values are replaced by the single new value. -/
def Header.Set (h : Header) (key value : Bytes) : Header :=
  (key, value) :: h.filter (fun kv => kv.1 != key)

/-- Go `Header.Get`: the value stored under the key, or the empty string. -/
def Header.Get (h : Header) (key : Bytes) : Bytes :=
  match h.lookup key with
  | some v => v
  | none => []

/-- The parts of a Go `*http.Request` the program determines. -/
structure Request where
  Method : Bytes
  URL : Bytes
  Body : Bytes
  Header : Header
  deriving DecidableEq, Repr

/-- What `client.Do` hands back on success: the body bytes `ioutil.ReadAll` delivers and the
error it reports, if any. -/
structure Response where
  Body : Bytes
  ReadErr : Option Err
  deriving DecidableEq, Repr

/-- One element of `Balance.Result` (lines 72-76). -/
structure BalanceCoin where
  Coin : Bytes
  Free : Float64
  Total : Float64
  deriving DecidableEq, Repr

/-- Go type `Balance` (lines 70-77). -/
structure Balance where
  Success : Bool
  Result : List BalanceCoin
  deriving DecidableEq, Repr

/-- One element of `LendingRate.Result` (lines 80-84). -/
structure LendingRateCoin where
  Coin : Bytes
  Estimate : Float64
  Previous : Float64
  deriving DecidableEq, Repr

/-- Go type `LendingRate` (lines 79-86). -/
structure LendingRate where
  Result : List LendingRateCoin
  Success : Bool
  deriving DecidableEq, Repr

/-- Go type `LendingOffer` (lines 88-92). -/
structure LendingOffer where
  Coin : Bytes
  Size : Float64
  Rate : Float64
  deriving DecidableEq, Repr

/-- Go type `LendingResponse` (lines 94-97). -/
structure LendingResponse where
  Success : Bool
  Error : Bytes
  deriving DecidableEq, Repr

/-- Everything the program reads from outside its own source text. -/
structure Env where
  /-- Package variable `SUB_ACCOUNT` (line 28). -/
  SUB_ACCOUNT : Bytes
  /-- Package variable `API_KEY` (line 29). -/
  API_KEY : Bytes
  /-- Package variable `SECRET_KEY` (line 30). -/
  SECRET_KEY : Bytes
  /-- Package variable `Currency` (line 31). -/
  Currency : Bytes
  /-- The successive values of `time.Now().UTC().Unix()`, in the order the program reads them. -/
  now : Nat → Int
  /-- HMAC-SHA256 of the Go library: key, then message (`hmac.New(sha256.New, key)`, `Write`,
  `Sum(nil)`). -/
  hmacSha256 : Bytes → Bytes → Bytes
  /-- The error `http.NewRequest` reports for a method and a URL, if it reports one. -/
  newRequestErr : Bytes → Bytes → Option Err
  /-- The result of `client.Do` for the k-th request the program sends. -/
  clientDo : Nat → Request → Except Err Response
  /-- The value `json.Unmarshal` leaves in a zero `Balance`. -/
  unmarshalBalance : Bytes → Balance
  /-- The value `json.Unmarshal` leaves in a zero `LendingRate`. -/
  unmarshalLendingRate : Bytes → LendingRate
  /-- The value `json.Unmarshal` leaves in a zero `LendingResponse`. -/
  unmarshalLendingResponse : Bytes → LendingResponse
  /-- The bytes `json.Marshal` produces for a `LendingOffer`. -/
  marshalLendingOffer : LendingOffer → Bytes
  /-- The text `fmt` prints for a `float64` under the verb `%f`. -/
  fmtFloat : Float64 → Bytes
  /-- Whether the k-th poll of `timer.C` in a cycle finds the timer fired. -/
  timerFired : Nat → Bool

/-- What the program changes while it runs. -/
structure State where
  /-- Number of clock readings taken so far. -/
  ticks : Nat
  /-- Requests handed to `client.Do` so far, oldest first. -/
  sent : List Request
  /-- Messages written through package `log` so far, oldest first. -/
  log : List Bytes
  deriving DecidableEq, Repr

/-- Go `int64` wrap-around of an integer result. -/
def wrapInt64 (x : Int) : Int := (x + 2 ^ 63) % 2 ^ 64 - 2 ^ 63

/-- Go `strconv.FormatInt(i, 10)`. -/
def FormatInt (i : Int) : Bytes := str (toString i)

/-- Go `hex.EncodeToString`: two lowercase hexadecimal digits per byte. -/
def hexEncodeToString (src : Bytes) : Bytes :=
  src.flatMap (fun b =>
    [(str "0123456789abcdef").getD (b.toNat / 16) 0, (str "0123456789abcdef").getD (b.toNat % 16) 0])

/-- Function `milliTimestamp` (lines 177-179): one clock reading, in seconds, times 1000. -/
def milliTimestamp (env : Env) (s : State) : Bytes × State :=
  (FormatInt (wrapInt64 (env.now s.ticks * 1000)), { s with ticks := s.ticks + 1 })

/-- Go `http.NewRequest(method, url, bytes.NewBuffer(body))`: the pair `(req, err)`, of which
exactly one is nil. An empty method stands for GET. -/
def NewRequest (env : Env) (method url body : Bytes) : Option Request × Option Err :=
  match env.newRequestErr method url with
  | some e => (none, some e)
  | none =>
    (some { Method := if method = [] then str "GET" else method, URL := url, Body := body,
            Header := [] }, none)

/-- Local `params` of `FtxClient` (line 100): `Sprintf("%s%s/api%s%s", ...)` with the first
clock reading. -/
def FtxClient.params (env : Env) (s : State) (path method body : Bytes) : Bytes :=
  (milliTimestamp env s).1 ++ method ++ str "/api" ++ path ++ body

/-- Local `sign` of `FtxClient` (lines 101-103). -/
def FtxClient.sign (env : Env) (s : State) (path method body : Bytes) : Bytes :=
  hexEncodeToString (env.hmacSha256 env.SECRET_KEY (FtxClient.params env s path method body))

/-- Function `FtxClient` (lines 99-114). The headers are set on `req` before `err` is looked
at, so a nil `req` panics at line 105. -/
def FtxClient (env : Env) (s : State) (path method body : Bytes) :
    Outcome (Option Request × State) :=
  let s1 := (milliTimestamp env s).2
  let sign := FtxClient.sign env s path method body
  match NewRequest env method (URL ++ path) body with
  | (none, _) => Outcome.panic
  | (some req, err) =>
    let h := req.Header.Set (str "Content-Type") (str "application/json")
    let h := h.Set (str "FTX-KEY") env.API_KEY
    let h := h.Set (str "FTX-SIGN") sign
    let ts := milliTimestamp env s1
    let h := h.Set (str "FTX-TS") ts.1
    let h := h.Set (str "FTX-SUBACCOUNT") env.SUB_ACCOUNT
    match err with
    | some _ => Outcome.ok (none, ts.2)
    | none => Outcome.ok (some { req with Header := h }, ts.2)

/-- Function `GetResponseJson` (lines 181-195): the pair `(jsonByte, err)`. `client.Do`
dereferences its argument, so a nil request panics. -/
def GetResponseJson (env : Env) (s : State) (req : Option Request) :
    Outcome ((Bytes × Option Err) × State) :=
  match req with
  | none => Outcome.panic
  | some r =>
    let s1 := { s with sent := s.sent ++ [r] }
    match env.clientDo s.sent.length r with
    | Except.error e => Outcome.ok (([], some e), s1)
    | Except.ok resp => Outcome.ok ((resp.Body, resp.ReadErr), s1)

/-- The loop of `GetBalance` (lines 128-132) over the decoded entries, from the zero value. -/
def GetBalance.scan (currency : Bytes) (result : List BalanceCoin) : Float64 :=
  result.foldl (fun totalBalance coin => if coin.Coin = currency then coin.Total else totalBalance)
    Float64.zero

/-- Function `GetBalance` (lines 116-134). -/
def GetBalance (env : Env) (s : State) : Outcome (Float64 × State) :=
  match FtxClient env s (str "/wallet/balances") (str "GET") [] with
  | Outcome.panic => Outcome.panic
  | Outcome.ok (req, s1) =>
    match GetResponseJson env s1 req with
    | Outcome.panic => Outcome.panic
    | Outcome.ok ((_, some err), s2) =>
      Outcome.ok (Float64.zero,
        { s2 with log := s2.log ++ [str "Get account balance failed,err: " ++ err] })
    | Outcome.ok ((jsonByte, none), s2) =>
      Outcome.ok (GetBalance.scan env.Currency (env.unmarshalBalance jsonByte).Result, s2)

/-- The loop of `GetLendingRates` (lines 148-152) over the decoded entries, from the zero
value. -/
def GetLendingRates.scan (currency : Bytes) (result : List LendingRateCoin) : Float64 :=
  result.foldl (fun currencyRate coin => if coin.Coin = currency then coin.Estimate else currencyRate)
    Float64.zero

/-- Function `GetLendingRates` (lines 136-154). -/
def GetLendingRates (env : Env) (s : State) : Outcome (Float64 × State) :=
  match FtxClient env s (str "/spot_margin/lending_rates") (str "GET") [] with
  | Outcome.panic => Outcome.panic
  | Outcome.ok (req, s1) =>
    match GetResponseJson env s1 req with
    | Outcome.panic => Outcome.panic
    | Outcome.ok ((_, some err), s2) =>
      Outcome.ok (Float64.zero,
        { s2 with log := s2.log ++ [str "Get Lending Rates failed,err: " ++ err] })
    | Outcome.ok ((jsonByte, none), s2) =>
      Outcome.ok (GetLendingRates.scan env.Currency (env.unmarshalLendingRate jsonByte).Result, s2)

/-- Local `submitApy` of `SubmitLending` (line 158): the float64 product `apy * 0.6`. -/
def SubmitLending.submitApy (apy : Float64) : Float64 := Float64.mul apy Float64.c0_6

/-- The annualised value `x*24*365*100` of line 174: three float64 products, left to right. -/
def SubmitLending.annualised (x : Float64) : Float64 :=
  Float64.mul (Float64.mul (Float64.mul x Float64.c24) Float64.c365) Float64.c100

/-- The `LendingOffer` literal `SubmitLending` serialises (line 160). -/
def SubmitLending.offer (env : Env) (apy balance : Float64) : LendingOffer :=
  { Coin := env.Currency, Size := balance, Rate := SubmitLending.submitApy apy }

/-- Function `SubmitLending` (lines 156-175). -/
def SubmitLending (env : Env) (s : State) (apy balance : Float64) :
    Outcome (Bytes × State) :=
  let submitApy := SubmitLending.submitApy apy
  let body := env.marshalLendingOffer (SubmitLending.offer env apy balance)
  match FtxClient env s (str "/spot_margin/offers") (str "POST") body with
  | Outcome.panic => Outcome.panic
  | Outcome.ok (req, s1) =>
    match GetResponseJson env s1 req with
    | Outcome.panic => Outcome.panic
    | Outcome.ok ((_, some err), s2) =>
      Outcome.ok (str "Submit lending offer failed,err: " ++ err, s2)
    | Outcome.ok ((jsonByte, none), s2) =>
      let lendResp := env.unmarshalLendingResponse jsonByte
      if lendResp.Success = false then
        Outcome.ok (str "Submit lending offer failed,error: " ++ lendResp.Error, s2)
      else
        Outcome.ok (str "Submit lending offer success, Currency: " ++ env.Currency
          ++ str ", Size: " ++ env.fmtFloat balance
          ++ str ", Lending APY: " ++ env.fmtFloat (SubmitLending.annualised submitApy)
          ++ str "%, Estimate APY: " ++ env.fmtFloat (SubmitLending.annualised apy)
          ++ str "%,", s2)

/-- The locals of one pass through the loop body of the scheduled function (lines 53-55). -/
structure Iteration where
  balance : Float64
  apy : Float64
  result : Bytes
  deriving DecidableEq, Repr

/-- The `default` branch of the loop in `main` (lines 53-56): fetch the balance, fetch the
rate, submit. `time.Sleep` changes nothing the model records. -/
def iteration (env : Env) (s : State) : Outcome (Iteration × State) :=
  match GetBalance env s with
  | Outcome.panic => Outcome.panic
  | Outcome.ok (balance, s1) =>
    match GetLendingRates env s1 with
    | Outcome.panic => Outcome.panic
    | Outcome.ok (apy, s2) =>
      match SubmitLending env s2 apy balance with
      | Outcome.panic => Outcome.panic
      | Outcome.ok (result, s3) =>
        Outcome.ok ({ balance := balance, apy := apy, result := result }, s3)

/-- The scheduled function of `main` (lines 45-59) between two loop heads. -/
structure Cycle where
  /-- The program state. -/
  world : State
  /-- Local `result` (line 45). -/
  result : Bytes
  /-- How often `timer.C` was polled. -/
  polls : Nat
  /-- Whether the loop was left and `result` logged (line 59). -/
  exited : Bool
  deriving DecidableEq, Repr

/-- The scheduled function on entry (lines 45-46): `result` is the empty string. -/
def Cycle.start (s : State) : Cycle :=
  { world := s, result := [], polls := 0, exited := false }

/-- One step of the scheduled function (lines 48-59): at the loop head `timer.C` is polled;
if it fired the loop is left and `result` is logged, otherwise the loop body runs once. After
the function has returned nothing happens any more. -/
def Cycle.step (env : Env) (c : Cycle) : Outcome Cycle :=
  if c.exited then Outcome.ok c
  else if env.timerFired c.polls then
    Outcome.ok { c with exited := true, polls := c.polls + 1,
                        world := { c.world with log := c.world.log ++ [c.result] } }
  else
    match iteration env c.world with
    | Outcome.panic => Outcome.panic
    | Outcome.ok (it, w) =>
      Outcome.ok { c with world := w, result := it.result, polls := c.polls + 1 }

/-- Up to `fuel` steps of the scheduled function. -/
def Cycle.run (env : Env) : Nat → Cycle → Outcome Cycle
  | 0, c => Outcome.ok c
  | fuel + 1, c =>
    match Cycle.step env c with
    | Outcome.panic => Outcome.panic
    | Outcome.ok c1 => Cycle.run env fuel c1

/-- The loop body run `n` times in sequence from a state: the state reached and the string
`SubmitLending` returned in the last of these passes, the empty string when `n` is 0. -/
def passes (env : Env) : Nat → State → Outcome (Bytes × State)
  | 0, s => Outcome.ok ([], s)
  | n + 1, s =>
    match passes env n s with
    | Outcome.panic => Outcome.panic
    | Outcome.ok (_, s1) =>
      match iteration env s1 with
      | Outcome.panic => Outcome.panic
      | Outcome.ok (it, s2) => Outcome.ok (it.result, s2)

/-- A byte string occurs inside another one. -/
def Contains (x s : Bytes) : Prop := ∃ pre post : Bytes, s = pre ++ x ++ post

/-- The pair `(jsonByte, err)` that `GetResponseJson` returns for the k-th request. -/
def httpResult (env : Env) (k : Nat) (r : Request) : Bytes × Option Err :=
  match env.clientDo k r with
  | Except.error e => ([], some e)
  | Except.ok resp => (resp.Body, resp.ReadErr)

/-- The request `FtxClient` returns when `http.NewRequest` accepts the method and the URL. -/
def signedRequest (env : Env) (s : State) (path method body : Bytes) : Request :=
  { Method := if method = [] then str "GET" else method, URL := URL ++ path, Body := body,
    Header := [(str "FTX-SUBACCOUNT", env.SUB_ACCOUNT),
               (str "FTX-TS", FormatInt (wrapInt64 (env.now (s.ticks + 1) * 1000))),
               (str "FTX-SIGN", FtxClient.sign env s path method body),
               (str "FTX-KEY", env.API_KEY),
               (str "Content-Type", str "application/json")] }

/-- The program state after one signed request has been built and sent. -/
def afterCall (env : Env) (s : State) (path method body : Bytes) : State :=
  { ticks := s.ticks + 2, sent := s.sent ++ [signedRequest env s path method body], log := s.log }

/-- A concrete environment for worked examples: the clock advances one second per reading,
only the methods GET and POST are accepted, the balance call fails in transport when
`balanceFails` is set, and the three decoders deliver the given total, estimate and submission
response. Numbers are printed as `%f` prints them. The MAC is a stand-in (key followed by
message); no statement depends on its values. -/
def exampleEnv (balanceFails : Bool) (total estimate : Float64) (resp : LendingResponse) : Env :=
  { SUB_ACCOUNT := str "lending"
    API_KEY := str "key"
    SECRET_KEY := str "secret"
    Currency := str "USD"
    now := fun k => 1 + k
    hmacSha256 := fun key msg => key ++ msg
    newRequestErr := fun method _ =>
      if method = str "GET" ∨ method = str "POST" then none
      else some (str "net/http: invalid method")
    clientDo := fun _ req =>
      if balanceFails ∧ req.URL = URL ++ str "/wallet/balances" then
        Except.error (str "dial tcp: i/o timeout")
      else Except.ok { Body := [], ReadErr := none }
    unmarshalBalance := fun _ =>
      { Success := true, Result := [{ Coin := str "USD", Free := total, Total := total }] }
    unmarshalLendingRate := fun _ =>
      { Result := [{ Coin := str "USD", Estimate := estimate, Previous := Float64.zero }], Success := true }
    unmarshalLendingResponse := fun _ => resp
    marshalLendingOffer := fun o =>
      str "\x7b\"coin\":\"" ++ o.Coin ++ str "\",\"size\":" ++ o.Size.fmtF
        ++ str ",\"rate\":" ++ o.Rate.fmtF ++ str "\x7d"
    fmtFloat := Float64.fmtF
    timerFired := fun k => decide (2 ≤ k) }

/-- The program state before anything has run. -/
def State.init : State := { ticks := 0, sent := [], log := [] }

/-- The float64 1000 (0x408F400000000000). -/
def Float64.v1000 : Float64 := Float64.ofBits 0x408F400000000000

/-- The float64 nearest to 0.0001 (0x3F1A36E2EB1C432D). -/
def Float64.v0_0001 : Float64 := Float64.ofBits 0x3F1A36E2EB1C432D

/-- The float64 -5 (0xC014000000000000). -/
def Float64.vNeg5 : Float64 := Float64.ofBits 0xC014000000000000

/-- The float64 nearest to -0.0001 (0xBF1A36E2EB1C432D). -/
def Float64.vNeg0_0001 : Float64 := Float64.ofBits 0xBF1A36E2EB1C432D


/-! ## Request signer -/

/-- The request `FtxClient` builds when `http.NewRequest` accepts the method and the URL. -/
theorem FtxClient_of_accepted (env : Env) (s : State) (path method body : Bytes)
    (hreq : env.newRequestErr method (URL ++ path) = none) :
    FtxClient env s path method body =
      Outcome.ok (some { Method := if method = [] then str "GET" else method,
                         URL := URL ++ path, Body := body,
                         Header := [(str "FTX-SUBACCOUNT", env.SUB_ACCOUNT),
                                    (str "FTX-TS", FormatInt (wrapInt64 (env.now (s.ticks + 1) * 1000))),
                                    (str "FTX-SIGN", FtxClient.sign env s path method body),
                                    (str "FTX-KEY", env.API_KEY),
                                    (str "Content-Type", str "application/json")] },
                  { s with ticks := s.ticks + 2 }) := by
  have k1 : (str "Content-Type" != str "FTX-KEY") = true := by decide
  have k2 : (str "Content-Type" != str "FTX-SIGN") = true := by decide
  have k3 : (str "Content-Type" != str "FTX-TS") = true := by decide
  have k4 : (str "Content-Type" != str "FTX-SUBACCOUNT") = true := by decide
  have k5 : (str "FTX-KEY" != str "FTX-SIGN") = true := by decide
  have k6 : (str "FTX-KEY" != str "FTX-TS") = true := by decide
  have k7 : (str "FTX-KEY" != str "FTX-SUBACCOUNT") = true := by decide
  have k8 : (str "FTX-SIGN" != str "FTX-TS") = true := by decide
  have k9 : (str "FTX-SIGN" != str "FTX-SUBACCOUNT") = true := by decide
  have k10 : (str "FTX-TS" != str "FTX-SUBACCOUNT") = true := by decide
  simp only [FtxClient, NewRequest, hreq, Header.Set, milliTimestamp, List.filter, k1, k2, k3, k4,
    k5, k6, k7, k8, k9, k10]

/-- Reading a header that `FtxClient` wrote: the signature header. -/
theorem FtxClient_header_sign (a b c d e : Bytes) :
    Header.Get [(str "FTX-SUBACCOUNT", a), (str "FTX-TS", b), (str "FTX-SIGN", c),
                (str "FTX-KEY", d), (str "Content-Type", e)] (str "FTX-SIGN") = c := by
  have k1 : (str "FTX-SIGN" == str "FTX-SUBACCOUNT") = false := by decide
  have k2 : (str "FTX-SIGN" == str "FTX-TS") = false := by decide
  have k3 : (str "FTX-SIGN" == str "FTX-SIGN") = true := by decide
  simp only [Header.Get, List.lookup, k1, k2, k3]

/-- Reading a header that `FtxClient` wrote: the timestamp header. -/
theorem FtxClient_header_ts (a b c d e : Bytes) :
    Header.Get [(str "FTX-SUBACCOUNT", a), (str "FTX-TS", b), (str "FTX-SIGN", c),
                (str "FTX-KEY", d), (str "Content-Type", e)] (str "FTX-TS") = b := by
  have k1 : (str "FTX-TS" == str "FTX-SUBACCOUNT") = false := by decide
  have k2 : (str "FTX-TS" == str "FTX-TS") = true := by decide
  simp only [Header.Get, List.lookup, k1, k2]

/-- C1 (the code at the failing input). When `http.NewRequest` accepts the request, the string
`FtxClient` signs starts with the timestamp of its first clock reading, while the FTX-TS header
of the request it returns holds the timestamp of its second clock reading: the timestamp is
read again, not reused. -/
theorem FtxClient_timestamp_read_twice (env : Env) (s : State) (path method body : Bytes)
    (hreq : env.newRequestErr method (URL ++ path) = none) :
    ∃ req s1, FtxClient env s path method body = Outcome.ok (some req, s1) ∧
      FtxClient.params env s path method body =
        FormatInt (wrapInt64 (env.now s.ticks * 1000)) ++ method ++ str "/api" ++ path ++ body ∧
      req.Header.Get (str "FTX-SIGN") =
        hexEncodeToString (env.hmacSha256 env.SECRET_KEY (FtxClient.params env s path method body)) ∧
      req.Header.Get (str "FTX-TS") = FormatInt (wrapInt64 (env.now (s.ticks + 1) * 1000)) := by
  refine ⟨_, _, FtxClient_of_accepted env s path method body hreq, rfl, ?_, ?_⟩
  · exact FtxClient_header_sign _ _ _ _ _
  · exact FtxClient_header_ts _ _ _ _ _

/-- With clock readings of 1 s and 2 s, the signed string of a GET for /wallet/balances starts
with 1000 and the FTX-TS header is 2000. -/
theorem FtxClient_timestamp_read_twice_witness :
    (exampleEnv false Float64.v1000 Float64.v0_0001 ⟨true, []⟩).newRequestErr (str "GET")
        (URL ++ str "/wallet/balances") = none ∧
    ∃ req s1, FtxClient (exampleEnv false Float64.v1000 Float64.v0_0001 ⟨true, []⟩) State.init
        (str "/wallet/balances") (str "GET") [] = Outcome.ok (some req, s1) ∧
      FtxClient.params (exampleEnv false Float64.v1000 Float64.v0_0001 ⟨true, []⟩) State.init
        (str "/wallet/balances") (str "GET") [] = str "1000GET/api/wallet/balances" ∧
      req.Header.Get (str "FTX-TS") = str "2000" ∧
      str "2000" ≠ str "1000" := by
  refine ⟨by decide, ?_⟩
  obtain ⟨req, s1, h1, h2, _, h4⟩ :=
    FtxClient_timestamp_read_twice (exampleEnv false Float64.v1000 Float64.v0_0001 ⟨true, []⟩) State.init
      (str "/wallet/balances") (str "GET") [] (by decide)
  refine ⟨req, s1, h1, ?_, ?_, by decide⟩
  · rw [h2]; decide
  · rw [h4]; decide

/-- C2 (the code at the failing input). When `http.NewRequest` reports an error, `FtxClient`
does not return at all: it panics on the nil request before it looks at the error. -/
theorem FtxClient_panics_on_rejected (env : Env) (s : State) (path method body : Bytes) (e : Err)
    (hreq : env.newRequestErr method (URL ++ path) = some e) :
    FtxClient env s path method body = Outcome.panic := by
  simp only [FtxClient, NewRequest, hreq]

/-- A method with a blank is rejected by the example environment, and `FtxClient` panics. -/
theorem FtxClient_panics_on_rejected_witness :
    (exampleEnv false Float64.v1000 Float64.v0_0001 ⟨true, []⟩).newRequestErr (str "BAD METHOD")
        (URL ++ str "/wallet/balances") = some (str "net/http: invalid method") ∧
    FtxClient (exampleEnv false Float64.v1000 Float64.v0_0001 ⟨true, []⟩) State.init
        (str "/wallet/balances") (str "BAD METHOD") [] = Outcome.panic :=
  ⟨by decide, FtxClient_panics_on_rejected _ _ _ _ _ (str "net/http: invalid method") (by decide)⟩

/-- C3. The FTX-SIGN header of the request `FtxClient` returns is the lowercase hexadecimal
encoding of the HMAC-SHA256, keyed by the secret, of timestamp ++ method ++ "/api" ++ path ++
body (the empty body for a nil body); a second call with the same MAC function, secret,
timestamp, method, path and body carries the identical signature. -/
theorem FtxClient_signature (env env2 : Env) (s s2 : State) (path method body : Bytes)
    (hreq : env.newRequestErr method (URL ++ path) = none)
    (hreq2 : env2.newRequestErr method (URL ++ path) = none)
    (hmac : env2.hmacSha256 = env.hmacSha256)
    (hkey : env2.SECRET_KEY = env.SECRET_KEY)
    (hts : (milliTimestamp env2 s2).1 = (milliTimestamp env s).1) :
    ∃ req t req2 t2, FtxClient env s path method body = Outcome.ok (some req, t) ∧
      FtxClient env2 s2 path method body = Outcome.ok (some req2, t2) ∧
      req.Header.Get (str "FTX-SIGN") =
        hexEncodeToString (env.hmacSha256 env.SECRET_KEY
          ((milliTimestamp env s).1 ++ method ++ str "/api" ++ path ++ body)) ∧
      req2.Header.Get (str "FTX-SIGN") = req.Header.Get (str "FTX-SIGN") := by
  refine ⟨_, _, _, _, FtxClient_of_accepted env s path method body hreq,
    FtxClient_of_accepted env2 s2 path method body hreq2, ?_, ?_⟩
  · exact FtxClient_header_sign _ _ _ _ _
  · show Header.Get _ _ = Header.Get _ _
    rw [FtxClient_header_sign, FtxClient_header_sign]
    simp only [FtxClient.sign, FtxClient.params, hmac, hkey, hts]

/-- Two signed GET requests made within the same second carry the same signature. -/
theorem FtxClient_signature_witness :
    ∃ req t req2 t2,
      FtxClient (exampleEnv false Float64.v1000 Float64.v0_0001 ⟨true, []⟩) State.init
        (str "/wallet/balances") (str "GET") [] = Outcome.ok (some req, t) ∧
      FtxClient (exampleEnv true Float64.zero Float64.zero ⟨false, []⟩) State.init
        (str "/wallet/balances") (str "GET") [] = Outcome.ok (some req2, t2) ∧
      req.Header.Get (str "FTX-SIGN") =
        hexEncodeToString ((exampleEnv false Float64.v1000 Float64.v0_0001 ⟨true, []⟩).hmacSha256
          (exampleEnv false Float64.v1000 Float64.v0_0001 ⟨true, []⟩).SECRET_KEY
          ((milliTimestamp (exampleEnv false Float64.v1000 Float64.v0_0001 ⟨true, []⟩) State.init).1
            ++ str "GET" ++ str "/api" ++ str "/wallet/balances" ++ [])) ∧
      req2.Header.Get (str "FTX-SIGN") = req.Header.Get (str "FTX-SIGN") :=
  FtxClient_signature (exampleEnv false Float64.v1000 Float64.v0_0001 ⟨true, []⟩)
    (exampleEnv true Float64.zero Float64.zero ⟨false, []⟩) State.init State.init
    (str "/wallet/balances") (str "GET") [] (by decide) (by decide) rfl rfl rfl

/-! ## Exchange client -/

/-- The result of `FtxClient` in terms of `signedRequest`. -/
theorem FtxClient_eq_signedRequest (env : Env) (s : State) (path method body : Bytes)
    (hreq : env.newRequestErr method (URL ++ path) = none) :
    FtxClient env s path method body =
      Outcome.ok (some (signedRequest env s path method body), { s with ticks := s.ticks + 2 }) :=
  FtxClient_of_accepted env s path method body hreq

/-- Building a signed request and sending it: the pair received and the state afterwards. -/
theorem call_eq (env : Env) (s : State) (path method body : Bytes)
    (hreq : env.newRequestErr method (URL ++ path) = none) :
    (match FtxClient env s path method body with
      | Outcome.panic => Outcome.panic
      | Outcome.ok (req, s1) => GetResponseJson env s1 req) =
    Outcome.ok (httpResult env s.sent.length (signedRequest env s path method body),
      afterCall env s path method body) := by
  rw [FtxClient_eq_signedRequest env s path method body hreq]
  simp only [GetResponseJson, httpResult, afterCall]
  cases env.clientDo s.sent.length (signedRequest env s path method body) <;> rfl

/-- A selecting loop that meets no matching entry leaves the accumulator as it was. -/
theorem foldl_select_none {α β : Type} (p : α → Prop) [DecidablePred p] (g : α → β)
    (l : List α) (init : β) (h : ∀ x ∈ l, ¬ p x) :
    l.foldl (fun acc x => if p x then g x else acc) init = init := by
  induction l generalizing init with
  | nil => rfl
  | cons x xs ih =>
    have hx : ¬ p x := h x (List.mem_cons_self x xs)
    simp only [List.foldl_cons, if_neg hx]
    exact ih init (fun y hy => h y (List.mem_cons_of_mem x hy))

/-- A selecting loop ends with the value of the last matching entry. -/
theorem foldl_select_last {α β : Type} (p : α → Prop) [DecidablePred p] (g : α → β)
    (pre post : List α) (e : α) (init : β) (he : p e) (h : ∀ x ∈ post, ¬ p x) :
    (pre ++ e :: post).foldl (fun acc x => if p x then g x else acc) init = g e := by
  rw [List.foldl_append, List.foldl_cons, if_pos he]
  exact foldl_select_none p g post (g e) h

/-- The value and the state `GetBalance` returns. -/
theorem GetBalance_eq (env : Env) (s : State)
    (hreq : env.newRequestErr (str "GET") (URL ++ str "/wallet/balances") = none) :
    GetBalance env s =
      match httpResult env s.sent.length (signedRequest env s (str "/wallet/balances") (str "GET") []) with
      | (_, some err) =>
        Outcome.ok (Float64.zero, { afterCall env s (str "/wallet/balances") (str "GET") [] with
          log := s.log ++ [str "Get account balance failed,err: " ++ err] })
      | (jsonByte, none) =>
        Outcome.ok (GetBalance.scan env.Currency (env.unmarshalBalance jsonByte).Result,
          afterCall env s (str "/wallet/balances") (str "GET") []) := by
  have h := call_eq env s (str "/wallet/balances") (str "GET") [] hreq
  unfold GetBalance
  generalize httpResult env s.sent.length (signedRequest env s (str "/wallet/balances") (str "GET") []) = r at h
  cases hF : FtxClient env s (str "/wallet/balances") (str "GET") [] with
  | panic => rw [hF] at h; cases h
  | ok p =>
    obtain ⟨req, s1⟩ := p
    rw [hF] at h
    simp only at h ⊢
    rw [h]
    obtain ⟨j, e⟩ := r
    cases e <;> rfl

/-- The value and the state `GetLendingRates` returns. -/
theorem GetLendingRates_eq (env : Env) (s : State)
    (hreq : env.newRequestErr (str "GET") (URL ++ str "/spot_margin/lending_rates") = none) :
    GetLendingRates env s =
      match httpResult env s.sent.length
          (signedRequest env s (str "/spot_margin/lending_rates") (str "GET") []) with
      | (_, some err) =>
        Outcome.ok (Float64.zero, { afterCall env s (str "/spot_margin/lending_rates") (str "GET") [] with
          log := s.log ++ [str "Get Lending Rates failed,err: " ++ err] })
      | (jsonByte, none) =>
        Outcome.ok (GetLendingRates.scan env.Currency (env.unmarshalLendingRate jsonByte).Result,
          afterCall env s (str "/spot_margin/lending_rates") (str "GET") []) := by
  have h := call_eq env s (str "/spot_margin/lending_rates") (str "GET") [] hreq
  unfold GetLendingRates
  generalize httpResult env s.sent.length
    (signedRequest env s (str "/spot_margin/lending_rates") (str "GET") []) = r at h
  cases hF : FtxClient env s (str "/spot_margin/lending_rates") (str "GET") [] with
  | panic => rw [hF] at h; cases h
  | ok p =>
    obtain ⟨req, s1⟩ := p
    rw [hF] at h
    simp only at h ⊢
    rw [h]
    obtain ⟨j, e⟩ := r
    cases e <;> rfl

/-- C4. `GetBalance` returns a value; it is 0 when the HTTP call fails, the total of the last
result entry whose coin is the configured currency when the call succeeds and such an entry
exists, and 0 when the call succeeds and no entry has that coin. -/
theorem GetBalance_total (env : Env) (s : State)
    (hreq : env.newRequestErr (str "GET") (URL ++ str "/wallet/balances") = none) :
    ∃ v s1, GetBalance env s = Outcome.ok (v, s1) ∧
      (∀ jsonByte err, httpResult env s.sent.length
          (signedRequest env s (str "/wallet/balances") (str "GET") []) = (jsonByte, some err) →
        v = Float64.zero) ∧
      (∀ jsonByte, httpResult env s.sent.length
          (signedRequest env s (str "/wallet/balances") (str "GET") []) = (jsonByte, none) →
        (∀ pre e post, (env.unmarshalBalance jsonByte).Result = pre ++ e :: post →
          e.Coin = env.Currency → (∀ c ∈ post, c.Coin ≠ env.Currency) → v = e.Total) ∧
        ((∀ c ∈ (env.unmarshalBalance jsonByte).Result, c.Coin ≠ env.Currency) → v = Float64.zero)) := by
  rw [GetBalance_eq env s hreq]
  generalize httpResult env s.sent.length
    (signedRequest env s (str "/wallet/balances") (str "GET") []) = r
  obtain ⟨j, e⟩ := r
  cases e with
  | some err =>
    refine ⟨_, _, rfl, fun _ _ _ => rfl, ?_⟩
    intro jsonByte h
    cases h
  | none =>
    refine ⟨_, _, rfl, ?_, ?_⟩
    · intro jsonByte err h
      cases h
    · intro jsonByte h
      cases h
      refine ⟨?_, ?_⟩
      · intro pre e post hres he hpost
        show GetBalance.scan env.Currency (env.unmarshalBalance j).Result = e.Total
        rw [hres]
        exact foldl_select_last (fun c : BalanceCoin => c.Coin = env.Currency)
          (fun c => c.Total) pre post e Float64.zero he hpost
      · intro hnone
        exact foldl_select_none (fun c : BalanceCoin => c.Coin = env.Currency)
          (fun c => c.Total) _ Float64.zero hnone

/-- In the example environment (total 1000 for USD) `GetBalance` returns 1000. -/
theorem GetBalance_total_witness :
    ∃ s1, GetBalance (exampleEnv false Float64.v1000 Float64.v0_0001 ⟨true, []⟩) State.init
      = Outcome.ok (Float64.v1000, s1) := by
  obtain ⟨v, s1, h, _, hok⟩ :=
    GetBalance_total (exampleEnv false Float64.v1000 Float64.v0_0001 ⟨true, []⟩) State.init (by decide)
  have hv := (hok [] (by decide)).1 [] ⟨str "USD", Float64.v1000, Float64.v1000⟩ [] rfl rfl
    (fun c hc => absurd hc (List.not_mem_nil c))
  exact ⟨s1, by rw [h, hv]⟩

/-- C5. `GetLendingRates` returns a value; it is 0 when the HTTP call fails, the estimate field
(whatever the previous field holds) of the last result entry whose coin is the configured
currency when the call succeeds and such an entry exists, and 0 when the call succeeds and no
entry has that coin. -/
theorem GetLendingRates_estimate (env : Env) (s : State)
    (hreq : env.newRequestErr (str "GET") (URL ++ str "/spot_margin/lending_rates") = none) :
    ∃ v s1, GetLendingRates env s = Outcome.ok (v, s1) ∧
      (∀ jsonByte err, httpResult env s.sent.length
          (signedRequest env s (str "/spot_margin/lending_rates") (str "GET") [])
            = (jsonByte, some err) →
        v = Float64.zero) ∧
      (∀ jsonByte, httpResult env s.sent.length
          (signedRequest env s (str "/spot_margin/lending_rates") (str "GET") [])
            = (jsonByte, none) →
        (∀ pre e post, (env.unmarshalLendingRate jsonByte).Result = pre ++ e :: post →
          e.Coin = env.Currency → (∀ c ∈ post, c.Coin ≠ env.Currency) → v = e.Estimate) ∧
        ((∀ c ∈ (env.unmarshalLendingRate jsonByte).Result, c.Coin ≠ env.Currency) → v = Float64.zero)) := by
  rw [GetLendingRates_eq env s hreq]
  generalize httpResult env s.sent.length
    (signedRequest env s (str "/spot_margin/lending_rates") (str "GET") []) = r
  obtain ⟨j, e⟩ := r
  cases e with
  | some err =>
    refine ⟨_, _, rfl, fun _ _ _ => rfl, ?_⟩
    intro jsonByte h
    cases h
  | none =>
    refine ⟨_, _, rfl, ?_, ?_⟩
    · intro jsonByte err h
      cases h
    · intro jsonByte h
      cases h
      refine ⟨?_, ?_⟩
      · intro pre e post hres he hpost
        show GetLendingRates.scan env.Currency (env.unmarshalLendingRate j).Result = e.Estimate
        rw [hres]
        exact foldl_select_last (fun c : LendingRateCoin => c.Coin = env.Currency)
          (fun c => c.Estimate) pre post e Float64.zero he hpost
      · intro hnone
        exact foldl_select_none (fun c : LendingRateCoin => c.Coin = env.Currency)
          (fun c => c.Estimate) _ Float64.zero hnone

/-- In the example environment (estimate 0.0001, previous 0 for USD) `GetLendingRates` returns
0.0001. -/
theorem GetLendingRates_estimate_witness :
    ∃ s1, GetLendingRates (exampleEnv false Float64.v1000 Float64.v0_0001 ⟨true, []⟩) State.init
      = Outcome.ok (Float64.v0_0001, s1) := by
  obtain ⟨v, s1, h, _, hok⟩ :=
    GetLendingRates_estimate (exampleEnv false Float64.v1000 Float64.v0_0001 ⟨true, []⟩) State.init (by decide)
  have hv := (hok [] (by decide)).1 [] ⟨str "USD", Float64.v0_0001, Float64.zero⟩ [] rfl rfl
    (fun c hc => absurd hc (List.not_mem_nil c))
  exact ⟨s1, by rw [h, hv]⟩


/-! ## Float64 facts -/

/-- The exact value of a finite float64 from its fields. -/
theorem Float64.toRat?_of (x : Float64) (sgn : Bool) (m sc : Nat) (he : x.exp.val ≠ 2047)
    (hs : x.sign = sgn) (hm : x.significand = m) (hsc : x.scale = sc) :
    x.toRat? = some ((if sgn then -1 else 1) * (m : ℚ) * 2 ^ sc / 2 ^ 1075) := by
  simp only [Float64.toRat?, he, hs, hm, hsc, if_false]

/-- The constant `Float64.c0_6` is the float64 nearest to 0.6: it lies within half a unit in
the last place (2^-54) of 6/10. -/
theorem Float64.c0_6_nearest :
    ∃ q : ℚ, Float64.c0_6.toRat? = some q ∧ |q - 6 / 10| < 1 / 2 ^ 54 := by
  refine ⟨_, Float64.toRat?_of Float64.c0_6 false 5404319552844595 1022 (by decide) (by decide)
    (by decide) (by decide), ?_⟩
  rw [abs_lt]
  constructor <;> norm_num

/-- The constants 24, 365, 100 and the example values 1000 and -5 are exact. -/
theorem Float64.constants_exact :
    Float64.c24.toRat? = some 24 ∧ Float64.c365.toRat? = some 365 ∧
    Float64.c100.toRat? = some 100 ∧ Float64.v1000.toRat? = some 1000 ∧
    Float64.vNeg5.toRat? = some (-5) := by
  refine ⟨?_, ?_, ?_, ?_, ?_⟩
  · rw [Float64.toRat?_of Float64.c24 false 6755399441055744 1027 (by decide) (by decide)
      (by decide) (by decide)]
    norm_num
  · rw [Float64.toRat?_of Float64.c365 false 6421147906211840 1031 (by decide) (by decide)
      (by decide) (by decide)]
    norm_num
  · rw [Float64.toRat?_of Float64.c100 false 7036874417766400 1029 (by decide) (by decide)
      (by decide) (by decide)]
    norm_num
  · rw [Float64.toRat?_of Float64.v1000 false 8796093022208000 1032 (by decide) (by decide)
      (by decide) (by decide)]
    norm_num
  · rw [Float64.toRat?_of Float64.vNeg5 true 5629499534213120 1025 (by decide) (by decide)
      (by decide) (by decide)]
    norm_num

/-- The example value `Float64.v0_0001` is the float64 nearest to 0.0001: it lies within half
a unit in the last place (2^-67) of 1/10000. -/
theorem Float64.v0_0001_nearest :
    ∃ q : ℚ, Float64.v0_0001.toRat? = some q ∧ |q - 1 / 10000| < 1 / 2 ^ 67 := by
  refine ⟨_, Float64.toRat?_of Float64.v0_0001 false 7378697629483821 1009 (by decide)
    (by decide) (by decide) (by decide), ?_⟩
  rw [abs_lt]
  constructor <;> norm_num

/-- Packing keeps the sign it is given. -/
theorem Float64.pack_sign (sign : Bool) (m t : Nat) : (Float64.pack sign m t).sign = sign := by
  unfold Float64.pack
  split
  · rfl
  · split <;> rfl

/-- Packing never produces a NaN. -/
theorem Float64.pack_isNaN (sign : Bool) (m t : Nat) :
    (Float64.pack sign m t).isNaN = false := by
  unfold Float64.pack
  split
  · rfl
  · split
    · rfl
    · rename_i h
      have hlt : t - 1075 < 2047 := Nat.lt_of_not_le h
      simp only [Float64.isNaN, Bool.and_eq_false_imp, beq_iff_eq]
      intro h2
      rw [Nat.mod_eq_of_lt (Nat.lt_trans hlt (by decide))] at h2
      omega

/-- The float64 values nearest to the decimals 0.00006, 52.56 and 87.6: each lies within half
a unit in the last place of its decimal. -/
theorem Float64.decimals_nearest :
    (∃ q : ℚ, (Float64.ofBits 0x3F0F75104D551D69).toRat? = some q ∧
      |q - 6 / 100000| < 1 / 2 ^ 68) ∧
    (∃ q : ℚ, (Float64.ofBits 0x404A47AE147AE148).toRat? = some q ∧
      |q - 5256 / 100| < 1 / 2 ^ 48) ∧
    (∃ q : ℚ, (Float64.ofBits 0x4055E66666666666).toRat? = some q ∧
      |q - 876 / 10| < 1 / 2 ^ 47) := by
  refine ⟨⟨_, Float64.toRat?_of _ false 8854437155380585 1008 (by decide) (by decide)
      (by decide) (by decide), ?_⟩,
    ⟨_, Float64.toRat?_of _ false 7397162387956040 1028 (by decide) (by decide)
      (by decide) (by decide), ?_⟩,
    ⟨_, Float64.toRat?_of _ false 6164301989963366 1029 (by decide) (by decide)
      (by decide) (by decide), ?_⟩⟩
  · rw [abs_lt]
    constructor <;> norm_num
  · rw [abs_lt]
    constructor <;> norm_num
  · rw [abs_lt]
    constructor <;> norm_num

/-- Rounding keeps the sign it is given. -/
theorem Float64.round_sign (sign : Bool) (p x : Nat) : (Float64.round sign p x).sign = sign := by
  unfold Float64.round
  split
  · rfl
  · split <;> exact Float64.pack_sign _ _ _

/-- Rounding never produces a NaN. -/
theorem Float64.round_isNaN (sign : Bool) (p x : Nat) :
    (Float64.round sign p x).isNaN = false := by
  unfold Float64.round
  split
  · rfl
  · split <;> exact Float64.pack_isNaN _ _ _

/-- A zero product rounds to the zero of the given sign. -/
theorem Float64.round_zero (sign : Bool) (x : Nat) :
    Float64.round sign 0 x = { sign := sign, exp := 0, frac := 0 } := by
  simp only [Float64.round, if_true]

/-! ## Submission -/

/-- The string and the state `SubmitLending` returns. -/
theorem SubmitLending_eq (env : Env) (s : State) (apy balance : Float64)
    (hreq : env.newRequestErr (str "POST") (URL ++ str "/spot_margin/offers") = none) :
    SubmitLending env s apy balance =
      Outcome.ok
        (match httpResult env s.sent.length (signedRequest env s (str "/spot_margin/offers")
            (str "POST") (env.marshalLendingOffer (SubmitLending.offer env apy balance))) with
          | (_, some err) => str "Submit lending offer failed,err: " ++ err
          | (jsonByte, none) =>
            if (env.unmarshalLendingResponse jsonByte).Success = false then
              str "Submit lending offer failed,error: " ++ (env.unmarshalLendingResponse jsonByte).Error
            else
              str "Submit lending offer success, Currency: " ++ env.Currency
                ++ str ", Size: " ++ env.fmtFloat balance
                ++ str ", Lending APY: "
                ++ env.fmtFloat (SubmitLending.annualised (SubmitLending.submitApy apy))
                ++ str "%, Estimate APY: " ++ env.fmtFloat (SubmitLending.annualised apy)
                ++ str "%,",
         afterCall env s (str "/spot_margin/offers") (str "POST")
           (env.marshalLendingOffer (SubmitLending.offer env apy balance))) := by
  have h := call_eq env s (str "/spot_margin/offers") (str "POST")
    (env.marshalLendingOffer (SubmitLending.offer env apy balance)) hreq
  unfold SubmitLending
  generalize httpResult env s.sent.length (signedRequest env s (str "/spot_margin/offers")
    (str "POST") (env.marshalLendingOffer (SubmitLending.offer env apy balance))) = r at h
  cases hF : FtxClient env s (str "/spot_margin/offers") (str "POST")
      (env.marshalLendingOffer (SubmitLending.offer env apy balance)) with
  | panic => rw [hF] at h; cases h
  | ok p =>
    obtain ⟨req, s1⟩ := p
    rw [hF] at h
    simp only at h
    simp only [hF, h]
    obtain ⟨j, e⟩ := r
    cases e with
    | some err => rfl
    | none =>
      simp only
      split <;> rfl

/-- The rate of the offer is the local `submitApy`. -/
theorem SubmitLending.offer_rate (env : Env) (apy balance : Float64) :
    (SubmitLending.offer env apy balance).Rate = SubmitLending.submitApy apy := rfl

set_option maxRecDepth 100000 in
/-- The float64 products of the example: 0.0001 * 0.6, and the two annualised values. -/
theorem SubmitLending_example_products :
    SubmitLending.submitApy Float64.v0_0001 = Float64.ofBits 0x3F0F75104D551D69 ∧
    SubmitLending.annualised (SubmitLending.submitApy Float64.v0_0001)
      = Float64.ofBits 0x404A47AE147AE149 ∧
    SubmitLending.annualised Float64.v0_0001 = Float64.ofBits 0x4055E66666666667 := by
  refine ⟨by decide, by decide, by decide⟩

/-- C6 (counterexample). For balance 1000 and rate 0.0001 as float64 values, the rate of the
offer `SubmitLending` posts is not exactly 0.6 times the rate fetched, nor 0.00006, and the
two annualised values it computes are not 0.6 * r * 8760 * 100 and r * 8760 * 100, nor 52.56
and 87.6, nor even the float64 values nearest to 52.56 and 87.6. -/
theorem SubmitLending_exact_counterexample :
    ∃ res s1 req q,
      SubmitLending (exampleEnv false Float64.v1000 Float64.v0_0001 ⟨true, []⟩) State.init
        Float64.v0_0001 Float64.v1000 = Outcome.ok (res, s1) ∧
      s1.sent = [req] ∧
      req.Body = (exampleEnv false Float64.v1000 Float64.v0_0001 ⟨true, []⟩).marshalLendingOffer
        (SubmitLending.offer (exampleEnv false Float64.v1000 Float64.v0_0001 ⟨true, []⟩)
          Float64.v0_0001 Float64.v1000) ∧
      Float64.v0_0001.toRat? = some q ∧
      (SubmitLending.offer (exampleEnv false Float64.v1000 Float64.v0_0001 ⟨true, []⟩)
          Float64.v0_0001 Float64.v1000).Rate.toRat? ≠ some (6 / 10 * q) ∧
      (SubmitLending.offer (exampleEnv false Float64.v1000 Float64.v0_0001 ⟨true, []⟩)
          Float64.v0_0001 Float64.v1000).Rate.toRat? ≠ some (6 / 100000) ∧
      (SubmitLending.annualised (SubmitLending.submitApy Float64.v0_0001)).toRat?
        ≠ some (6 / 10 * q * 8760 * 100) ∧
      (SubmitLending.annualised (SubmitLending.submitApy Float64.v0_0001)).toRat?
        ≠ some (5256 / 100) ∧
      (SubmitLending.annualised Float64.v0_0001).toRat? ≠ some (q * 8760 * 100) ∧
      (SubmitLending.annualised Float64.v0_0001).toRat? ≠ some (876 / 10) ∧
      SubmitLending.annualised (SubmitLending.submitApy Float64.v0_0001)
        ≠ Float64.ofBits 0x404A47AE147AE148 ∧
      SubmitLending.annualised Float64.v0_0001 ≠ Float64.ofBits 0x4055E66666666666 := by
  obtain ⟨h1, h2, h3⟩ := SubmitLending_example_products
  have hq := Float64.toRat?_of Float64.v0_0001 false 7378697629483821 1009 (by decide)
    (by decide) (by decide) (by decide)
  have hrate := Float64.toRat?_of (Float64.ofBits 0x3F0F75104D551D69) false 8854437155380585
    1008 (by decide) (by decide) (by decide) (by decide)
  have ha1 := Float64.toRat?_of (Float64.ofBits 0x404A47AE147AE149) false 7397162387956041
    1028 (by decide) (by decide) (by decide) (by decide)
  have ha2 := Float64.toRat?_of (Float64.ofBits 0x4055E66666666667) false 6164301989963367
    1029 (by decide) (by decide) (by decide) (by decide)
  refine ⟨_, _, _, _, SubmitLending_eq _ State.init Float64.v0_0001 Float64.v1000 (by decide),
    rfl, rfl, hq, ?_, ?_, ?_, ?_, ?_, ?_, ?_, ?_⟩
  · rw [SubmitLending.offer_rate, h1, hrate, Ne, Option.some.injEq]
    norm_num
  · rw [SubmitLending.offer_rate, h1, hrate, Ne, Option.some.injEq]
    norm_num
  · rw [h2, ha1, Ne, Option.some.injEq]
    norm_num
  · rw [h2, ha1, Ne, Option.some.injEq]
    norm_num
  · rw [h3, ha2, Ne, Option.some.injEq]
    norm_num
  · rw [h3, ha2, Ne, Option.some.injEq]
    norm_num
  · rw [h2]; decide
  · rw [h3]; decide

/-- C6 (amended). `SubmitLending` sends one POST to /spot_margin/offers whose body is the
serialised offer with coin the configured currency, size b and rate the float64 product
r * 0.6, and on acceptance it reports the float64 products ((r * 0.6) * 24) * 365 * 100 and
(r * 24) * 365 * 100; for r = 0.0001 these are the float64 values 6e-05, 52.56000000000001 and
87.60000000000001. -/
theorem SubmitLending_offer (env : Env) (s : State) (r b : Float64)
    (hreq : env.newRequestErr (str "POST") (URL ++ str "/spot_margin/offers") = none) :
    (∃ res s1 req, SubmitLending env s r b = Outcome.ok (res, s1) ∧
      s1.sent = s.sent ++ [req] ∧
      req.Method = str "POST" ∧ req.URL = URL ++ str "/spot_margin/offers" ∧
      SubmitLending.offer env r b
        = { Coin := env.Currency, Size := b, Rate := Float64.mul r Float64.c0_6 } ∧
      req.Body = env.marshalLendingOffer
        { Coin := env.Currency, Size := b, Rate := Float64.mul r Float64.c0_6 } ∧
      (∀ jsonByte, httpResult env s.sent.length req = (jsonByte, none) →
        (env.unmarshalLendingResponse jsonByte).Success = true →
        res = str "Submit lending offer success, Currency: " ++ env.Currency
          ++ str ", Size: " ++ env.fmtFloat b
          ++ str ", Lending APY: "
          ++ env.fmtFloat (Float64.mul (Float64.mul (Float64.mul (Float64.mul r Float64.c0_6)
              Float64.c24) Float64.c365) Float64.c100)
          ++ str "%, Estimate APY: "
          ++ env.fmtFloat (Float64.mul (Float64.mul (Float64.mul r Float64.c24) Float64.c365)
              Float64.c100)
          ++ str "%,")) ∧
    Float64.mul Float64.v0_0001 Float64.c0_6 = Float64.ofBits 0x3F0F75104D551D69 ∧
    Float64.mul (Float64.mul (Float64.mul (Float64.mul Float64.v0_0001 Float64.c0_6)
      Float64.c24) Float64.c365) Float64.c100 = Float64.ofBits 0x404A47AE147AE149 ∧
    Float64.mul (Float64.mul (Float64.mul Float64.v0_0001 Float64.c24) Float64.c365)
      Float64.c100 = Float64.ofBits 0x4055E66666666667 := by
  refine ⟨⟨_, _, _, SubmitLending_eq env s r b hreq, rfl, rfl, rfl, rfl, rfl, ?_⟩,
    SubmitLending_example_products⟩
  intro jsonByte hres hsucc
  have hres1 : httpResult env s.sent.length (signedRequest env s (str "/spot_margin/offers")
      (str "POST") (env.marshalLendingOffer (SubmitLending.offer env r b)))
      = (jsonByte, none) := hres
  rw [hres1]
  simp only [hsucc]
  rfl

set_option maxRecDepth 100000 in
/-- For balance 1000 and rate 0.0001 the example environment posts an offer with rate 6e-05
and reports 52.560000 and 87.600000. -/
theorem SubmitLending_offer_witness :
    ∃ res s1 req,
      SubmitLending (exampleEnv false Float64.v1000 Float64.v0_0001 ⟨true, []⟩) State.init
        Float64.v0_0001 Float64.v1000 = Outcome.ok (res, s1) ∧
      s1.sent = [req] ∧
      req.Body = (exampleEnv false Float64.v1000 Float64.v0_0001 ⟨true, []⟩).marshalLendingOffer
        { Coin := str "USD", Size := Float64.v1000,
          Rate := Float64.ofBits 0x3F0F75104D551D69 } ∧
      res = str ("Submit lending offer success, Currency: USD, Size: 1000.000000, "
        ++ "Lending APY: 52.560000%, Estimate APY: 87.600000%,") := by
  obtain ⟨⟨res, s1, req, h, hsent, _, _, _, hbody, hres⟩, e1, e2, e3⟩ :=
    SubmitLending_offer (exampleEnv false Float64.v1000 Float64.v0_0001 ⟨true, []⟩) State.init
      Float64.v0_0001 Float64.v1000 (by decide)
  have hres1 := hres [] rfl rfl
  rw [e1] at hbody
  rw [e2, e3] at hres1
  refine ⟨res, s1, req, h, hsent, hbody, ?_⟩
  rw [hres1]
  decide

/-- C7. When the submission call returns a body: if the decoded response has success false
and error x, the string `SubmitLending` returns contains x; if it has success true, the string
contains the configured currency code, the formatted size, the formatted annualised submitted
rate and the formatted annualised estimated rate. -/
theorem SubmitLending_summary (env : Env) (s : State) (apy balance : Float64)
    (jsonByte : Bytes)
    (hreq : env.newRequestErr (str "POST") (URL ++ str "/spot_margin/offers") = none)
    (hres : httpResult env s.sent.length (signedRequest env s (str "/spot_margin/offers")
      (str "POST") (env.marshalLendingOffer (SubmitLending.offer env apy balance)))
        = (jsonByte, none)) :
    ∃ res s1, SubmitLending env s apy balance = Outcome.ok (res, s1) ∧
      (∀ x, (env.unmarshalLendingResponse jsonByte).Success = false →
        (env.unmarshalLendingResponse jsonByte).Error = x → Contains x res) ∧
      ((env.unmarshalLendingResponse jsonByte).Success = true →
        Contains env.Currency res ∧ Contains (env.fmtFloat balance) res ∧
        Contains (env.fmtFloat (SubmitLending.annualised (SubmitLending.submitApy apy))) res ∧
        Contains (env.fmtFloat (SubmitLending.annualised apy)) res) := by
  refine ⟨_, _, SubmitLending_eq env s apy balance hreq, ?_, ?_⟩
  · intro x hfalse hx
    rw [hres]
    simp only [hfalse, if_true]
    exact ⟨str "Submit lending offer failed,error: ", [], by rw [hx, List.append_nil]⟩
  · intro htrue
    rw [hres]
    have hne : ¬ ((env.unmarshalLendingResponse jsonByte).Success = false) := by
      rw [htrue]; decide
    simp only [if_neg hne]
    refine ⟨⟨str "Submit lending offer success, Currency: ",
        str ", Size: " ++ env.fmtFloat balance ++ str ", Lending APY: "
          ++ env.fmtFloat (SubmitLending.annualised (SubmitLending.submitApy apy))
          ++ str "%, Estimate APY: " ++ env.fmtFloat (SubmitLending.annualised apy)
          ++ str "%,", ?_⟩,
      ⟨str "Submit lending offer success, Currency: " ++ env.Currency ++ str ", Size: ",
        str ", Lending APY: "
          ++ env.fmtFloat (SubmitLending.annualised (SubmitLending.submitApy apy))
          ++ str "%, Estimate APY: " ++ env.fmtFloat (SubmitLending.annualised apy)
          ++ str "%,", ?_⟩,
      ⟨str "Submit lending offer success, Currency: " ++ env.Currency ++ str ", Size: "
          ++ env.fmtFloat balance ++ str ", Lending APY: ",
        str "%, Estimate APY: " ++ env.fmtFloat (SubmitLending.annualised apy) ++ str "%,", ?_⟩,
      ⟨str "Submit lending offer success, Currency: " ++ env.Currency ++ str ", Size: "
          ++ env.fmtFloat balance ++ str ", Lending APY: "
          ++ env.fmtFloat (SubmitLending.annualised (SubmitLending.submitApy apy))
          ++ str "%, Estimate APY: ",
        str "%,", ?_⟩⟩ <;>
    simp only [List.append_assoc]

/-- A rejected submission with error text "Size too small" is reported with that text. -/
theorem SubmitLending_summary_witness :
    ∃ res s1,
      SubmitLending (exampleEnv false Float64.v1000 Float64.v0_0001
          ⟨false, str "Size too small"⟩) State.init Float64.v0_0001 Float64.v1000
        = Outcome.ok (res, s1) ∧
      Contains (str "Size too small") res := by
  obtain ⟨res, s1, h, hfail, _⟩ :=
    SubmitLending_summary (exampleEnv false Float64.v1000 Float64.v0_0001
      ⟨false, str "Size too small"⟩) State.init Float64.v0_0001 Float64.v1000 []
      (by decide) rfl
  exact ⟨res, s1, h, hfail (str "Size too small") rfl rfl⟩

/-! ## One pass through the loop body -/

/-- A selecting loop keeps every property that holds of the start value and of each matching
entry's value. -/
theorem foldl_select_inv {α β : Type} (p : α → Prop) [DecidablePred p] (g : α → β)
    (P : β → Prop) (l : List α) (init : β) (hinit : P init) (h : ∀ x ∈ l, p x → P (g x)) :
    P (l.foldl (fun acc x => if p x then g x else acc) init) := by
  induction l generalizing init with
  | nil => exact hinit
  | cons x xs ih =>
    simp only [List.foldl_cons]
    apply ih
    · by_cases hx : p x
      · rw [if_pos hx]; exact h x (List.mem_cons_self x xs) hx
      · rw [if_neg hx]; exact hinit
    · exact fun y hy => h y (List.mem_cons_of_mem x hy)

/-- What `GetBalance` returns and what it leaves behind. -/
theorem GetBalance_returns (env : Env) (s : State)
    (hreq : env.newRequestErr (str "GET") (URL ++ str "/wallet/balances") = none) :
    ∃ v s1, GetBalance env s = Outcome.ok (v, s1) ∧
      s1.sent = s.sent ++ [signedRequest env s (str "/wallet/balances") (str "GET") []] ∧
      v = (match httpResult env s.sent.length
              (signedRequest env s (str "/wallet/balances") (str "GET") []) with
            | (_, some _) => Float64.zero
            | (jsonByte, none) =>
              GetBalance.scan env.Currency (env.unmarshalBalance jsonByte).Result) := by
  rw [GetBalance_eq env s hreq]
  generalize httpResult env s.sent.length
    (signedRequest env s (str "/wallet/balances") (str "GET") []) = r
  obtain ⟨j, e⟩ := r
  cases e with
  | some err => exact ⟨_, _, rfl, rfl, rfl⟩
  | none => exact ⟨_, _, rfl, rfl, rfl⟩

/-- What `GetLendingRates` returns and what it leaves behind. -/
theorem GetLendingRates_returns (env : Env) (s : State)
    (hreq : env.newRequestErr (str "GET") (URL ++ str "/spot_margin/lending_rates") = none) :
    ∃ v s1, GetLendingRates env s = Outcome.ok (v, s1) ∧
      s1.sent = s.sent ++ [signedRequest env s (str "/spot_margin/lending_rates") (str "GET") []] ∧
      v = (match httpResult env s.sent.length
              (signedRequest env s (str "/spot_margin/lending_rates") (str "GET") []) with
            | (_, some _) => Float64.zero
            | (jsonByte, none) =>
              GetLendingRates.scan env.Currency (env.unmarshalLendingRate jsonByte).Result) := by
  rw [GetLendingRates_eq env s hreq]
  generalize httpResult env s.sent.length
    (signedRequest env s (str "/spot_margin/lending_rates") (str "GET") []) = r
  obtain ⟨j, e⟩ := r
  cases e with
  | some err => exact ⟨_, _, rfl, rfl, rfl⟩
  | none => exact ⟨_, _, rfl, rfl, rfl⟩

/-- One pass through the loop body returns, having made the three calls in order. -/
theorem iteration_returns (env : Env) (s : State)
    (hb : env.newRequestErr (str "GET") (URL ++ str "/wallet/balances") = none)
    (hr : env.newRequestErr (str "GET") (URL ++ str "/spot_margin/lending_rates") = none)
    (ho : env.newRequestErr (str "POST") (URL ++ str "/spot_margin/offers") = none) :
    ∃ b s1 a s2 res s3, GetBalance env s = Outcome.ok (b, s1) ∧
      GetLendingRates env s1 = Outcome.ok (a, s2) ∧
      SubmitLending env s2 a b = Outcome.ok (res, s3) ∧
      iteration env s = Outcome.ok ({ balance := b, apy := a, result := res }, s3) ∧
      s3.sent = s.sent ++ [signedRequest env s (str "/wallet/balances") (str "GET") [],
        signedRequest env s1 (str "/spot_margin/lending_rates") (str "GET") [],
        signedRequest env s2 (str "/spot_margin/offers") (str "POST")
          (env.marshalLendingOffer (SubmitLending.offer env a b))] := by
  obtain ⟨b, s1, hB, hs1, _⟩ := GetBalance_returns env s hb
  obtain ⟨a, s2, hR, hs2, _⟩ := GetLendingRates_returns env s1 hr
  have hS := SubmitLending_eq env s2 a b ho
  refine ⟨b, s1, a, s2, _, _, hB, hR, hS, ?_, ?_⟩
  · simp only [iteration, hB, hR, hS]
  · simp only [afterCall, hs2, hs1, List.append_assoc, List.cons_append, List.nil_append]

/-- C8. In a pass through the loop body whose balance call fails in transport, `GetBalance`
yields 0 and the submission is still made: the three requests are sent and the third is the
POST of an offer of size 0, at the float64 product of 0.6 and whatever rate was fetched. -/
theorem iteration_balance_failure (env : Env) (s : State) (jsonByte : Bytes) (err : Err)
    (hb : env.newRequestErr (str "GET") (URL ++ str "/wallet/balances") = none)
    (hr : env.newRequestErr (str "GET") (URL ++ str "/spot_margin/lending_rates") = none)
    (ho : env.newRequestErr (str "POST") (URL ++ str "/spot_margin/offers") = none)
    (hfail : httpResult env s.sent.length
      (signedRequest env s (str "/wallet/balances") (str "GET") []) = (jsonByte, some err)) :
    ∃ it s3 r1 r2 r3, iteration env s = Outcome.ok (it, s3) ∧ it.balance = Float64.zero ∧
      s3.sent = s.sent ++ [r1, r2, r3] ∧
      r1.URL = URL ++ str "/wallet/balances" ∧
      r3.Method = str "POST" ∧ r3.URL = URL ++ str "/spot_margin/offers" ∧
      SubmitLending.offer env it.apy it.balance
        = { Coin := env.Currency, Size := Float64.zero,
            Rate := Float64.mul it.apy Float64.c0_6 } ∧
      r3.Body = env.marshalLendingOffer
        { Coin := env.Currency, Size := Float64.zero,
          Rate := Float64.mul it.apy Float64.c0_6 } := by
  obtain ⟨b, s1, a, s2, res, s3, hB, _, _, hI, hsent⟩ := iteration_returns env s hb hr ho
  obtain ⟨b2, s12, hB2, _, hv⟩ := GetBalance_returns env s hb
  rw [hB] at hB2
  cases hB2
  rw [hfail] at hv
  simp only at hv
  subst hv
  exact ⟨_, _, _, _, _, hI, rfl, hsent, rfl, rfl, rfl, rfl, rfl⟩

/-- With the balance call timing out, the example environment still posts an offer, of
size 0. -/
theorem iteration_balance_failure_witness :
    ∃ it s3 r1 r2 r3,
      iteration (exampleEnv true Float64.v1000 Float64.v0_0001 ⟨true, []⟩) State.init = Outcome.ok (it, s3) ∧
      it.balance = Float64.zero ∧ s3.sent = [r1, r2, r3] ∧
      r3.Method = str "POST" ∧ r3.URL = URL ++ str "/spot_margin/offers" ∧
      r3.Body = (exampleEnv true Float64.v1000 Float64.v0_0001 ⟨true, []⟩).marshalLendingOffer
        { Coin := str "USD", Size := Float64.zero,
          Rate := Float64.mul it.apy Float64.c0_6 } := by
  obtain ⟨it, s3, r1, r2, r3, h, hbal, hsent, _, hm, hu, _, hbody⟩ :=
    iteration_balance_failure (exampleEnv true Float64.v1000 Float64.v0_0001 ⟨true, []⟩) State.init []
      (str "dial tcp: i/o timeout") (by decide) (by decide) (by decide) (by decide)
  exact ⟨it, s3, r1, r2, r3, h, hbal, hsent, hm, hu, hbody⟩


/-- A value whose sign bit is clear does not lie below zero in the order. -/
theorem Float64.key_nonneg_of_sign (x : Float64) (h : x.sign = false) : 0 ≤ x.key := by
  simp only [Float64.key, h, Bool.false_eq_true, if_false]
  exact Int.natCast_nonneg _

/-- The float64 product with the constant 0.6 of a value that is at least zero is at least
zero. -/
theorem Float64.zero_le_mul_c0_6 (a : Float64) (h : Float64.zero ≤ a) :
    Float64.zero ≤ Float64.mul a Float64.c0_6 := by
  obtain ⟨_, hna, hkey⟩ := h
  have hz : Float64.zero.key = 0 := by decide
  rw [hz] at hkey
  have hcn : Float64.c0_6.isNaN = false := by decide
  have hci : Float64.c0_6.isInf = false := by decide
  have hcz : Float64.c0_6.isZero = false := by decide
  have hcs : Float64.c0_6.sign = false := by decide
  have hsign : (a.sign != false) = a.sign := by cases a.sign <;> rfl
  refine ⟨by decide, ?_, ?_⟩
  · unfold Float64.mul
    simp only [hna, hcn, hci, hcz, hcs, Bool.or_false, Bool.false_eq_true, if_false]
    split
    · split
      · rename_i hz2
        exfalso
        rename_i hinf
        simp only [Float64.isInf, Bool.and_eq_true, beq_iff_eq] at hinf
        simp only [Float64.isZero, Bool.and_eq_true, beq_iff_eq] at hz2
        omega
      · rfl
    · exact Float64.round_isNaN _ _ _
  · rw [hz]
    unfold Float64.mul
    simp only [hna, hcn, hci, hcz, hcs, Bool.or_false, Bool.false_eq_true, if_false]
    split
    · split
      · rename_i hinf hz2
        exfalso
        simp only [Float64.isInf, Bool.and_eq_true, beq_iff_eq] at hinf
        simp only [Float64.isZero, Bool.and_eq_true, beq_iff_eq] at hz2
        omega
      · rename_i hinf _
        simp only [Float64.isInf, Bool.and_eq_true, beq_iff_eq] at hinf
        cases hs : a.sign with
        | false => decide
        | true =>
          exfalso
          simp only [Float64.key, hs, if_true] at hkey
          omega
    · rw [hsign]
      cases hs : a.sign with
      | false => exact Float64.key_nonneg_of_sign _ (Float64.round_sign _ _ _)
      | true =>
        simp only [Float64.key, hs, if_true] at hkey
        have hsum : a.exp.val * 4503599627370496 + a.frac.val = 0 := by omega
        have he : a.exp.val = 0 := by omega
        have hf : a.frac.val = 0 := by omega
        have hsig : a.significand = 0 := by simp only [Float64.significand, he, hf, if_true]
        rw [hsig, Nat.zero_mul, Float64.round_zero]
        decide

set_option maxRecDepth 100000 in
/-- The float64 product -0.0001 * 0.6. -/
theorem SubmitLending_example_negative :
    SubmitLending.submitApy Float64.vNeg0_0001 = Float64.ofBits 0xBF0F75104D551D69 := by
  decide

/-- C9 (counterexample). The exchange reports a total of -5 and an estimate of -0.0001 for
the configured currency: the offer built in that pass has size -5 and rate -0.00006 (the
float64 product -0.0001 * 0.6), neither of them at least zero, and it is the offer posted. -/
theorem offer_negative_counterexample :
    ∃ it s3 r1 r2 r3,
      iteration (exampleEnv false Float64.vNeg5 Float64.vNeg0_0001 ⟨true, []⟩) State.init
        = Outcome.ok (it, s3) ∧
      s3.sent = [r1, r2, r3] ∧
      r3.Body = (exampleEnv false Float64.vNeg5 Float64.vNeg0_0001 ⟨true, []⟩).marshalLendingOffer
        (SubmitLending.offer (exampleEnv false Float64.vNeg5 Float64.vNeg0_0001 ⟨true, []⟩)
          it.apy it.balance) ∧
      SubmitLending.offer (exampleEnv false Float64.vNeg5 Float64.vNeg0_0001 ⟨true, []⟩)
          it.apy it.balance
        = { Coin := str "USD", Size := Float64.vNeg5,
            Rate := Float64.ofBits 0xBF0F75104D551D69 } ∧
      ¬ (Float64.zero ≤ (SubmitLending.offer
          (exampleEnv false Float64.vNeg5 Float64.vNeg0_0001 ⟨true, []⟩) it.apy it.balance).Size) ∧
      ¬ (Float64.zero ≤ (SubmitLending.offer
          (exampleEnv false Float64.vNeg5 Float64.vNeg0_0001 ⟨true, []⟩) it.apy it.balance).Rate) := by
  obtain ⟨b, s1, a, s2, res, s3, hB, hR, _, hI, hsent⟩ :=
    iteration_returns (exampleEnv false Float64.vNeg5 Float64.vNeg0_0001 ⟨true, []⟩) State.init
      (by decide) (by decide) (by decide)
  obtain ⟨b2, t1, hB2, _, hb⟩ :=
    GetBalance_returns (exampleEnv false Float64.vNeg5 Float64.vNeg0_0001 ⟨true, []⟩) State.init
      (by decide)
  obtain ⟨a2, t2, hR2, _, ha⟩ :=
    GetLendingRates_returns (exampleEnv false Float64.vNeg5 Float64.vNeg0_0001 ⟨true, []⟩) s1
      (by decide)
  rw [hB] at hB2
  cases hB2
  rw [hR] at hR2
  cases hR2
  have hb5 : b = Float64.vNeg5 := by
    rw [hb]
    exact foldl_select_last (fun c : BalanceCoin => c.Coin = str "USD") (fun c => c.Total)
      [] [] ⟨str "USD", Float64.vNeg5, Float64.vNeg5⟩ Float64.zero rfl
      (fun c hc => absurd hc (List.not_mem_nil c))
  have ha1 : a = Float64.vNeg0_0001 := by
    rw [ha]
    exact foldl_select_last (fun c : LendingRateCoin => c.Coin = str "USD")
      (fun c => c.Estimate) [] [] ⟨str "USD", Float64.vNeg0_0001, Float64.zero⟩ Float64.zero rfl
      (fun c hc => absurd hc (List.not_mem_nil c))
  subst hb5
  subst ha1
  have hoffer : SubmitLending.offer (exampleEnv false Float64.vNeg5 Float64.vNeg0_0001 ⟨true, []⟩)
      Float64.vNeg0_0001 Float64.vNeg5
        = { Coin := str "USD", Size := Float64.vNeg5,
            Rate := Float64.ofBits 0xBF0F75104D551D69 } := by
    simp only [SubmitLending.offer, SubmitLending_example_negative]
    rfl
  refine ⟨_, _, _, _, _, hI, hsent, rfl, hoffer, ?_, ?_⟩
  · show ¬ (Float64.zero ≤ (SubmitLending.offer _ Float64.vNeg0_0001 Float64.vNeg5).Size)
    rw [hoffer]; decide
  · show ¬ (Float64.zero ≤ (SubmitLending.offer _ Float64.vNeg0_0001 Float64.vNeg5).Rate)
    rw [hoffer]; decide

/-- C9 (amended). When no entry for the configured currency in the balances response received
has a total below zero and none in the lending-rates response received has an estimate below
zero (a failed call delivers no entries), the size and the rate of the offer built in that pass
through the loop body are both at least zero. -/
theorem offer_nonneg_of_nonneg (env : Env) (s : State)
    (hb : env.newRequestErr (str "GET") (URL ++ str "/wallet/balances") = none)
    (hr : env.newRequestErr (str "GET") (URL ++ str "/spot_margin/lending_rates") = none)
    (ho : env.newRequestErr (str "POST") (URL ++ str "/spot_margin/offers") = none)
    (htotal : ∀ jsonByte, httpResult env s.sent.length
        (signedRequest env s (str "/wallet/balances") (str "GET") []) = (jsonByte, none) →
      ∀ c ∈ (env.unmarshalBalance jsonByte).Result, c.Coin = env.Currency →
        Float64.zero ≤ c.Total)
    (hestimate : ∀ v s1 jsonByte, GetBalance env s = Outcome.ok (v, s1) →
      httpResult env s1.sent.length
        (signedRequest env s1 (str "/spot_margin/lending_rates") (str "GET") [])
          = (jsonByte, none) →
      ∀ c ∈ (env.unmarshalLendingRate jsonByte).Result, c.Coin = env.Currency →
        Float64.zero ≤ c.Estimate) :
    ∃ it s3, iteration env s = Outcome.ok (it, s3) ∧
      Float64.zero ≤ (SubmitLending.offer env it.apy it.balance).Size ∧
      Float64.zero ≤ (SubmitLending.offer env it.apy it.balance).Rate := by
  obtain ⟨b, s1, a, s2, res, s3, hB, hR, _, hI, _⟩ := iteration_returns env s hb hr ho
  obtain ⟨b2, t1, hB2, _, hbv⟩ := GetBalance_returns env s hb
  obtain ⟨a2, t2, hR2, _, hav⟩ := GetLendingRates_returns env s1 hr
  rw [hB] at hB2
  cases hB2
  rw [hR] at hR2
  cases hR2
  have hzz : Float64.zero ≤ Float64.zero := by decide
  have hb0 : Float64.zero ≤ b := by
    rw [hbv]
    cases hres : httpResult env s.sent.length
        (signedRequest env s (str "/wallet/balances") (str "GET") []) with
    | mk j e =>
      cases e with
      | some err => exact hzz
      | none =>
        exact foldl_select_inv (fun c : BalanceCoin => c.Coin = env.Currency) (fun c => c.Total)
          (fun v => Float64.zero ≤ v) _ Float64.zero hzz (htotal j hres)
  have ha0 : Float64.zero ≤ a := by
    rw [hav]
    cases hres : httpResult env s1.sent.length
        (signedRequest env s1 (str "/spot_margin/lending_rates") (str "GET") []) with
    | mk j e =>
      cases e with
      | some err => exact hzz
      | none =>
        exact foldl_select_inv (fun c : LendingRateCoin => c.Coin = env.Currency)
          (fun c => c.Estimate) (fun v => Float64.zero ≤ v) _ Float64.zero hzz
          (hestimate b s1 j hB hres)
  exact ⟨_, _, hI, hb0, Float64.zero_le_mul_c0_6 a ha0⟩

/-- With total 1000 and estimate 0.0001 the offer of the example environment has size and
rate at least zero. -/
theorem offer_nonneg_of_nonneg_witness :
    ∃ it s3,
      iteration (exampleEnv false Float64.v1000 Float64.v0_0001 ⟨true, []⟩) State.init
        = Outcome.ok (it, s3) ∧
      Float64.zero ≤ (SubmitLending.offer
        (exampleEnv false Float64.v1000 Float64.v0_0001 ⟨true, []⟩) it.apy it.balance).Size ∧
      Float64.zero ≤ (SubmitLending.offer
        (exampleEnv false Float64.v1000 Float64.v0_0001 ⟨true, []⟩) it.apy it.balance).Rate :=
  offer_nonneg_of_nonneg (exampleEnv false Float64.v1000 Float64.v0_0001 ⟨true, []⟩) State.init
    (by decide) (by decide) (by decide)
    (by
      intro j _ c hc _
      have hc1 : c = ⟨str "USD", Float64.v1000, Float64.v1000⟩ := List.mem_singleton.mp hc
      rw [hc1]; decide)
    (by
      intro v s1 j _ _ c hc _
      have hc1 : c = ⟨str "USD", Float64.v0_0001, Float64.zero⟩ := List.mem_singleton.mp hc
      rw [hc1]; decide)

/-! ## The scheduled cycle -/

/-- Once the scheduled function has returned, further steps change nothing. -/
theorem Cycle_run_exited (env : Env) (fuel : Nat) (c : Cycle) (h : c.exited = true) :
    Cycle.run env fuel c = Outcome.ok c := by
  induction fuel with
  | zero => rfl
  | succ n ih => simp only [Cycle.run, Cycle.step, h, if_true, ih]

/-- Any number of passes through the loop body returns, three requests per pass. -/
theorem passes_returns (env : Env) (s : State)
    (hb : env.newRequestErr (str "GET") (URL ++ str "/wallet/balances") = none)
    (hr : env.newRequestErr (str "GET") (URL ++ str "/spot_margin/lending_rates") = none)
    (ho : env.newRequestErr (str "POST") (URL ++ str "/spot_margin/offers") = none)
    (n : Nat) :
    ∃ res sN, passes env n s = Outcome.ok (res, sN) ∧
      sN.sent.length = s.sent.length + 3 * n := by
  induction n with
  | zero => exact ⟨[], s, rfl, rfl⟩
  | succ k ih =>
    obtain ⟨r0, sk, hk, hlen⟩ := ih
    obtain ⟨b, s1, a, s2, res, s3, _, _, _, hI, hsent⟩ := iteration_returns env sk hb hr ho
    refine ⟨res, s3, ?_, ?_⟩
    · simp only [passes, hk, hI]
    · rw [hsent, List.length_append, hlen]
      simp only [List.length_cons, List.length_nil]
      omega

/-- From a loop head reached after `j` passes, with the timer first found fired `m` polls
later, every run of more than `m` steps ends after `m` further passes with the string of the
last pass logged. -/
theorem Cycle_run_until_fired (env : Env) (s : State)
    (hb : env.newRequestErr (str "GET") (URL ++ str "/wallet/balances") = none)
    (hr : env.newRequestErr (str "GET") (URL ++ str "/spot_margin/lending_rates") = none)
    (ho : env.newRequestErr (str "POST") (URL ++ str "/spot_margin/offers") = none)
    (m : Nat) : ∀ (c : Cycle) (j fuel : Nat), c.exited = false →
      passes env j s = Outcome.ok (c.result, c.world) →
      (∀ k, c.polls ≤ k → k < c.polls + m → env.timerFired k = false) →
      env.timerFired (c.polls + m) = true → m < fuel →
      ∃ c1 res sN, Cycle.run env fuel c = Outcome.ok c1 ∧ c1.exited = true ∧
        c1.polls = c.polls + m + 1 ∧
        passes env (j + m) s = Outcome.ok (res, sN) ∧
        c1.result = res ∧
        c1.world = { sN with log := sN.log ++ [res] } := by
  induction m with
  | zero =>
    intro c j fuel hex hpass _ hfired hfuel
    obtain ⟨f, rfl⟩ : ∃ f, fuel = f + 1 := ⟨fuel - 1, by omega⟩
    have hfired0 : env.timerFired c.polls = true := by simpa using hfired
    refine ⟨{ c with exited := true, polls := c.polls + 1,
                     world := { c.world with log := c.world.log ++ [c.result] } },
      c.result, c.world, ?_, rfl, rfl, hpass, rfl, rfl⟩
    simp only [Cycle.run, Cycle.step, hex, hfired0, if_true, Bool.false_eq_true, if_false]
    exact Cycle_run_exited env f _ rfl
  | succ m ih =>
    intro c j fuel hex hpass hbefore hfired hfuel
    obtain ⟨f, rfl⟩ : ∃ f, fuel = f + 1 := ⟨fuel - 1, by omega⟩
    have hnot : env.timerFired c.polls = false := hbefore c.polls (le_refl _) (by omega)
    obtain ⟨b, s1, a, s2, res, s3, _, _, _, hI, _⟩ := iteration_returns env c.world hb hr ho
    have hstep : Cycle.step env c = Outcome.ok
        { c with world := s3, result := res, polls := c.polls + 1 } := by
      simp only [Cycle.step, hex, hnot, hI, Bool.false_eq_true, if_false]
    have hpass1 : passes env (j + 1) s = Outcome.ok (res, s3) := by
      simp only [passes, hpass, hI]
    obtain ⟨c1, r1, sN, hrun, h1, h2, h3, h4, h5⟩ :=
      ih { c with world := s3, result := res, polls := c.polls + 1 } (j + 1) f hex hpass1
        (fun k hk1 hk2 => hbefore k (by simp only at hk1; omega) (by simp only at hk2; omega))
        (by simpa [Nat.add_assoc, Nat.add_comm 1 m] using hfired)
        (by omega)
    refine ⟨c1, r1, sN, ?_, h1, ?_, ?_, h4, h5⟩
    · simp only [Cycle.run, hstep, hrun]
    · rw [h2]; simp only; omega
    · rw [← h3]; congr 1; omega

/-- C10. With the timer first found fired at the n-th poll (counting from 0), every run of the
scheduled function of more than n steps returns after exactly n passes through the loop body,
however many further steps it is given: its state is the state after n passes (3 n requests)
with one more log line, and that line is the string `SubmitLending` returned in the n-th pass,
that is the most recent call, or the empty string when n = 0. -/
theorem Cycle_deadline (env : Env) (s : State) (n fuel : Nat)
    (hb : env.newRequestErr (str "GET") (URL ++ str "/wallet/balances") = none)
    (hr : env.newRequestErr (str "GET") (URL ++ str "/spot_margin/lending_rates") = none)
    (ho : env.newRequestErr (str "POST") (URL ++ str "/spot_margin/offers") = none)
    (hbefore : ∀ k, k < n → env.timerFired k = false)
    (hfired : env.timerFired n = true)
    (hfuel : n < fuel) :
    ∃ c res sN, Cycle.run env fuel (Cycle.start s) = Outcome.ok c ∧ c.exited = true ∧
      c.polls = n + 1 ∧
      passes env n s = Outcome.ok (res, sN) ∧
      sN.sent.length = s.sent.length + 3 * n ∧
      c.world = { sN with log := sN.log ++ [res] } ∧
      (n = 0 → res = [] ∧ sN = s) ∧
      (∀ k, n = k + 1 → ∃ r0 sk b s1 a s2, passes env k s = Outcome.ok (r0, sk) ∧
        GetBalance env sk = Outcome.ok (b, s1) ∧
        GetLendingRates env s1 = Outcome.ok (a, s2) ∧
        SubmitLending env s2 a b = Outcome.ok (res, sN)) := by
  obtain ⟨c, res, sN, h, h1, h2, h3, _, h5⟩ :=
    Cycle_run_until_fired env s hb hr ho n (Cycle.start s) 0 fuel rfl rfl
      (fun k _ hk => hbefore k (by simpa [Cycle.start] using hk))
      (by simpa [Cycle.start] using hfired) hfuel
  rw [Nat.zero_add] at h3
  obtain ⟨res2, sN2, hp, hlen⟩ := passes_returns env s hb hr ho n
  rw [h3] at hp
  cases hp
  refine ⟨c, res, sN, h, h1, ?_, h3, hlen, h5, ?_, ?_⟩
  · simpa [Cycle.start] using h2
  · intro hn
    subst hn
    simp only [passes] at h3
    cases h3
    exact ⟨rfl, rfl⟩
  · intro k hk
    subst hk
    obtain ⟨r0, sk, hpk, _⟩ := passes_returns env s hb hr ho k
    obtain ⟨b, s1, a, s2, res3, s3, hB, hR, hS, hI, _⟩ := iteration_returns env sk hb hr ho
    have h3b : passes env (k + 1) s = Outcome.ok (res3, s3) := by
      simp only [passes, hpk, hI]
    rw [h3] at h3b
    cases h3b
    exact ⟨r0, sk, b, s1, a, s2, hpk, hB, hR, hS⟩

/-- In the example environment without a transport failure every call returns an empty body
and no error. -/
theorem exampleEnv_httpResult (total estimate : Float64) (resp : LendingResponse) (k : Nat)
    (r : Request) : httpResult (exampleEnv false total estimate resp) k r = ([], none) := rfl

set_option maxRecDepth 100000 in
/-- The string `SubmitLending` returns in the example environment for the values the two
fetches deliver there. -/
theorem exampleEnv_SubmitLending (s : State) :
    ∃ s1, SubmitLending (exampleEnv false Float64.v1000 Float64.v0_0001 ⟨true, []⟩) s
        Float64.v0_0001 Float64.v1000
      = Outcome.ok (str ("Submit lending offer success, Currency: USD, Size: 1000.000000, "
          ++ "Lending APY: 52.560000%, Estimate APY: 87.600000%,"), s1) := by
  refine ⟨afterCall (exampleEnv false Float64.v1000 Float64.v0_0001 ⟨true, []⟩) s
    (str "/spot_margin/offers") (str "POST")
    ((exampleEnv false Float64.v1000 Float64.v0_0001 ⟨true, []⟩).marshalLendingOffer
      (SubmitLending.offer (exampleEnv false Float64.v1000 Float64.v0_0001 ⟨true, []⟩)
        Float64.v0_0001 Float64.v1000)), ?_⟩
  rw [SubmitLending_eq _ s Float64.v0_0001 Float64.v1000 (by decide), exampleEnv_httpResult]
  obtain ⟨_, e2, e3⟩ := SubmitLending_example_products
  have hstr : (str "Submit lending offer success, Currency: " ++ str "USD"
      ++ str ", Size: " ++ Float64.fmtF Float64.v1000
      ++ str ", Lending APY: " ++ Float64.fmtF (Float64.ofBits 0x404A47AE147AE149)
      ++ str "%, Estimate APY: " ++ Float64.fmtF (Float64.ofBits 0x4055E66666666667)
      ++ str "%,") = str ("Submit lending offer success, Currency: USD, Size: 1000.000000, "
          ++ "Lending APY: 52.560000%, Estimate APY: 87.600000%,") := by decide
  rw [← hstr, ← e2, ← e3]
  rfl

/-- In the example environment the timer is found fired at the third poll: a run of ten steps
stops after two passes and six requests, and the last line it logs is the summary
`SubmitLending` returned in the second pass. -/
theorem Cycle_deadline_witness :
    ∃ c, Cycle.run (exampleEnv false Float64.v1000 Float64.v0_0001 ⟨true, []⟩) 10
        (Cycle.start State.init) = Outcome.ok c ∧ c.exited = true ∧
      c.polls = 3 ∧
      c.world.sent.length = 6 ∧
      c.world.log.getLast? = some (str ("Submit lending offer success, Currency: USD, "
        ++ "Size: 1000.000000, Lending APY: 52.560000%, Estimate APY: 87.600000%,")) := by
  obtain ⟨c, res, sN, h, h1, h2, _, hlen, hworld, _, hlast⟩ :=
    Cycle_deadline (exampleEnv false Float64.v1000 Float64.v0_0001 ⟨true, []⟩) State.init 2 10
      (by decide) (by decide) (by decide)
      (by intro k hk; interval_cases k <;> rfl) (by decide) (by decide)
  obtain ⟨r0, sk, b, s1, a, s2, _, hB, hR, hS⟩ := hlast 1 rfl
  obtain ⟨b2, t1, hB2, _, hb⟩ :=
    GetBalance_returns (exampleEnv false Float64.v1000 Float64.v0_0001 ⟨true, []⟩) sk (by decide)
  obtain ⟨a2, t2, hR2, _, ha⟩ :=
    GetLendingRates_returns (exampleEnv false Float64.v1000 Float64.v0_0001 ⟨true, []⟩) s1
      (by decide)
  rw [hB] at hB2
  cases hB2
  rw [hR] at hR2
  cases hR2
  have hb1 : b = Float64.v1000 := by
    rw [hb]
    exact foldl_select_last (fun c : BalanceCoin => c.Coin = str "USD") (fun c => c.Total)
      [] [] ⟨str "USD", Float64.v1000, Float64.v1000⟩ Float64.zero rfl
      (fun c hc => absurd hc (List.not_mem_nil c))
  have ha1 : a = Float64.v0_0001 := by
    rw [ha]
    exact foldl_select_last (fun c : LendingRateCoin => c.Coin = str "USD")
      (fun c => c.Estimate) [] [] ⟨str "USD", Float64.v0_0001, Float64.zero⟩ Float64.zero rfl
      (fun c hc => absurd hc (List.not_mem_nil c))
  subst hb1
  subst ha1
  obtain ⟨s3, hS2⟩ := exampleEnv_SubmitLending s2
  rw [hS] at hS2
  cases hS2
  refine ⟨c, h, h1, h2, ?_, ?_⟩
  · rw [hworld]
    exact hlen
  · rw [hworld]
    exact List.getLast?_concat _

end FtxLendingBot
